import Mathlib

/-!
Verification of the PersonaVoiceBot backend (src/backend/server.py,
src/backend/auth.py, src/backend/bot.py): a shallow embedding of the
session-negotiation endpoints, the authentication dependency, the
lifecycle callbacks registered on the transport, and the pipeline text
tap, together with theorems settling the specification claims.

External collaborators (the aiortc/pipecat handshake, the Supabase
verifier, JSON parsing of the ICE_SERVERS variable, per-candidate
application to the live handshake) are passed in as explicit function
parameters, so each endpoint is a pure state transformer over the
module-level registry.
-/

namespace PersonaVoiceBot

/-! ### Connectivity candidates (server.py, candidate_endpoint) -/

/-- One raw ICE candidate entry as read from the request JSON:
the values of the keys read by the endpoint, with `none` modelling
an absent key or JSON null: in the code these are `c.get("candidate")`,
`c.get("sdp_mid")` and `c.get("sdp_mline_index")`. -/
structure RawCandidate where
  candidate : Option String
  sdp_mid : Option String
  sdp_mline_index : Option Nat
deriving DecidableEq, Repr

/-- The Python truthiness test `not candidate_str` guarding the first
skip: true when the candidate key is absent/null or the string is
empty (the end-of-candidates marker). -/
def candidate_str_falsy (c : RawCandidate) : Bool :=
  match c.candidate with
  | none => true
  | some s => s == ""

/-- Which of the two skip conditions of the candidate loop applies,
evaluated in the order the code checks them: the empty-candidate test
first, the missing sdp_mid/sdp_mline_index test second. -/
inductive SkipReason
  | endOfCandidates
  | missingMidAndIndex
deriving DecidableEq, Repr

/-- The skip decision of the candidate loop, mirroring the order of the
two `continue` branches in server.py. -/
def skipCheck (c : RawCandidate) : Option SkipReason :=
  if candidate_str_falsy c then some SkipReason.endOfCandidates
  else if c.sdp_mid.isNone && c.sdp_mline_index.isNone then
    some SkipReason.missingMidAndIndex
  else none

/-- The ICE state of one SmallWebRTCConnection as far as the candidate
endpoint touches it: the ordered list of successfully applied
candidates. -/
structure Conn where
  applied : List RawCandidate
deriving DecidableEq, Repr

/-- The body of the inner try of the candidate loop:
`candidate_from_sdp` plus `connection.add_ice_candidate` may raise
(modelled by the `applyFails` oracle, `none` = an exception), otherwise
the candidate is applied to the handshake in arrival order. -/
def add_ice_candidate (applyFails : RawCandidate → Bool) (conn : Conn)
    (c : RawCandidate) : Option Conn :=
  if applyFails c then none else some ⟨conn.applied ++ [c]⟩

/-- The `for c in candidates` loop of candidate_endpoint: skip empty
candidates, skip candidates with neither sdp_mid nor sdp_mline_index,
and swallow per-candidate application errors, continuing with the rest
of the batch. -/
def applyCandidates (applyFails : RawCandidate → Bool) :
    Conn → List RawCandidate → Conn
  | conn, [] => conn
  | conn, c :: rest =>
    if candidate_str_falsy c then applyCandidates applyFails conn rest
    else if c.sdp_mid.isNone && c.sdp_mline_index.isNone then
      applyCandidates applyFails conn rest
    else
      match add_ice_candidate applyFails conn c with
      | some conn2 => applyCandidates applyFails conn2 rest
      | none => applyCandidates applyFails conn rest

/-! ### The session registry (server.py, active_connections) -/

/-- The module-level `active_connections` dict, keyed by pc_id. -/
abbrev Registry := List (String × Conn)

/-- Dict lookup `active_connections.get(pc_id)` for a string key. -/
def lookupConn : Registry → String → Option Conn
  | [], _ => none
  | (k, v) :: rest, pid => if k = pid then some v else lookupConn rest pid

/-- Dict write on an existing key: replace the binding in place (the
Python code mutates the stored connection object). -/
def setConn : Registry → String → Conn → Registry
  | [], _, _ => []
  | (k, v) :: rest, pid, c =>
    if k = pid then (k, c) :: rest else (k, v) :: setConn rest pid c

/-- Dict assignment `active_connections[pc_id] = connection`: replace an
existing binding or append a fresh one. -/
def insertConn (reg : Registry) (pid : String) (c : Conn) : Registry :=
  match lookupConn reg pid with
  | some _ => setConn reg pid c
  | none => reg ++ [(pid, c)]

/-! ### The candidate endpoint -/

/-- Responses of candidate_endpoint visible to the caller. -/
inductive CandResponse
  | ok
  | notFound
deriving DecidableEq, Repr

/-- The candidate request body: `data.get("pc_id")` and
`data.get("candidates", [])`; `none` models an absent key. -/
structure CandidateRequest where
  pc_id : Option String
  candidates : Option (List RawCandidate)
deriving DecidableEq, Repr

/-- candidate_endpoint (server.py): look up the connection for pc_id;
404 when absent (no state change), otherwise run the candidate loop on
the stored connection and answer ok. -/
def candidate_endpoint (applyFails : RawCandidate → Bool) (reg : Registry)
    (req : CandidateRequest) : Registry × CandResponse :=
  match req.pc_id with
  | none => (reg, CandResponse.notFound)
  | some pid =>
    match lookupConn reg pid with
    | none => (reg, CandResponse.notFound)
    | some conn =>
      (setConn reg pid (applyCandidates applyFails conn (req.candidates.getD [])),
        CandResponse.ok)

/-! ### Authentication (auth.py, verify_token / get_current_user) -/

/-- An HTTPException as raised towards the client: status code plus
detail string. -/
structure HttpError where
  status : Nat
  detail : String
deriving DecidableEq, Repr

/-- The user payload assembled by verify_token from the Supabase
response: id, email, and the full_name entry of user_metadata
(`none` when user_metadata carries no full_name). -/
structure UserData where
  id : String
  email : String
  full_name : Option String
deriving DecidableEq, Repr

/-- Outcome of the external call `supabase.auth.get_user(token)` for
the presented bearer token. -/
inductive GetUserOutcome
  | raises
  | noUser
  | found (u : UserData)
deriving DecidableEq, Repr

/-- The Python exceptions that can escape the try body of verify_token:
the internally raised HTTPException for a falsy user response, the
AttributeError hit when the supabase client is None, and anything
raised by the verifier call itself. -/
inductive PyExc
  | httpException (e : HttpError)
  | attributeError
  | other
deriving DecidableEq, Repr

/-- The try body of verify_token: reads the token, calls the verifier,
raises 401 "Invalid authentication token" when the response carries no
user, otherwise returns the user data. With the supabase client
unconfigured (None) the attribute access raises. -/
def verify_token_body (supabaseConfigured : Bool) (getUser : GetUserOutcome) :
    Except PyExc UserData :=
  if supabaseConfigured then
    match getUser with
    | GetUserOutcome.raises => Except.error PyExc.other
    | GetUserOutcome.noUser =>
      Except.error (PyExc.httpException ⟨401, "Invalid authentication token"⟩)
    | GetUserOutcome.found u => Except.ok u
  else Except.error PyExc.attributeError

/-- verify_token: the try body wrapped by `except Exception`, which
replaces every escaping exception (the internal HTTPException included)
by 401 "Could not validate credentials". -/
def verify_token (supabaseConfigured : Bool) (getUser : GetUserOutcome) :
    Except HttpError UserData :=
  match verify_token_body supabaseConfigured getUser with
  | Except.ok u => Except.ok u
  | Except.error _ => Except.error ⟨401, "Could not validate credentials"⟩

/-- get_current_user: the FastAPI dependency protecting the endpoints;
it simply defers to verify_token. -/
def get_current_user (supabaseConfigured : Bool) (getUser : GetUserOutcome) :
    Except HttpError UserData :=
  verify_token supabaseConfigured getUser

/-! ### ICE server configuration (server.py, get_ice_servers) -/

/-- One entry of the ICE server configuration list. -/
structure IceServer where
  urls : String
  username : Option String
  credential : Option String
deriving DecidableEq, Repr

/-- The fallback returned when ICE_SERVERS is unset, empty or
unparsable: the single public Google STUN entry. -/
def default_ice_servers : List IceServer :=
  [{ urls := "stun:stun.l.google.com:19302", username := none, credential := none }]

/-- get_ice_servers: `env` is the value of os.getenv("ICE_SERVERS")
(`none` = unset) and `parseJson` models json.loads on it (`none` =
JSONDecodeError). An unset or empty variable, or a parse failure,
yields the default list. -/
def get_ice_servers (env : Option String)
    (parseJson : String → Option (List IceServer)) : List IceServer :=
  match env with
  | none => default_ice_servers
  | some s =>
    if s = "" then default_ice_servers
    else
      match parseJson s with
      | some servers => servers
      | none => default_ice_servers

/-- The response of the GET / route. -/
structure ConnectionDetails where
  transport : String
  url : String
  ice_servers : List IceServer
deriving DecidableEq, Repr

/-- get_connection_details (server.py, GET /): a pure description of
the connection parameters for the frontend. -/
def get_connection_details (env : Option String)
    (parseJson : String → Option (List IceServer)) (port : Nat) :
    ConnectionDetails :=
  { transport := "webrtc"
    url := "http://localhost:" ++ toString port
    ice_servers := get_ice_servers env parseJson }

/-! ### The offer endpoint (server.py, offer_endpoint) -/

/-- The answer produced by connection.get_answer(): the fresh pc_id and
the answer SDP. -/
structure Answer where
  pcId : String
  sdp : String
deriving DecidableEq, Repr

/-- The session-scoped side effects of the offer endpoint that the
claims talk about: the registry, how many SmallWebRTCConnection objects
were constructed, and whether a bot pipeline task was started. -/
structure OfferEffects where
  registry : Registry
  connectionsCreated : Nat
  botStarted : Bool
deriving DecidableEq, Repr

/-- Responses of the offer endpoint: the negotiated answer, a JSON 500
error produced by the catch-all handler, or the rejection raised by the
authentication dependency before the body runs. -/
inductive OfferResponse
  | answer (a : Answer)
  | jsonError (status : Nat) (detail : String)
  | authReject (e : HttpError)
deriving DecidableEq, Repr

/-- The parameter names accepted by run_bot in bot.py:
`async def run_bot(transport, args)`. -/
def run_bot_params : List String := ["transport", "args"]

/-- The extra keyword arguments server.py passes when it calls run_bot
inside asyncio.create_task. -/
def offer_run_bot_kwargs : List String := ["user_name"]

/-- A Python call binds successfully only when every keyword argument
names a declared parameter; otherwise the call raises TypeError at
call time, before any coroutine is scheduled. -/
def python_kwargs_accepted (params kwargs : List String) : Bool :=
  kwargs.all params.contains

/-- Whether the run_bot call in offer_endpoint binds its arguments. -/
def run_bot_call_ok : Bool :=
  python_kwargs_accepted run_bot_params offer_run_bot_kwargs

/-- The TypeError text produced when the run_bot call fails to bind. -/
def run_bot_type_error_msg : String :=
  "run_bot() got an unexpected keyword argument user_name"

/-- Python str.split() with no separator, over the character list:
runs of whitespace separate words and empty words are dropped (space
is the only whitespace character the model needs). -/
def py_split_aux : List Char → List Char → List String
  | [], acc => if acc.isEmpty then [] else [String.mk acc.reverse]
  | ch :: rest, acc =>
    if ch = ' ' then
      if acc.isEmpty then py_split_aux rest []
      else String.mk acc.reverse :: py_split_aux rest []
    else py_split_aux rest (ch :: acc)

/-- Python str.split() with no separator. -/
def py_split (s : String) : List String := py_split_aux s.data []

/-- The first-name extraction of offer_endpoint:
`user_full_name.split()[0] if user_full_name else None`; indexing the
split of a whitespace-only name raises IndexError. -/
def user_first_name (full_name : String) : Except String (Option String) :=
  if full_name = "" then Except.ok none
  else
    match py_split full_name with
    | [] => Except.error "IndexError: list index out of range"
    | w :: _ => Except.ok (some w)

/-- The try body of offer endpoint for an authenticated user:
construct a connection, negotiate (`initialize` may raise, modelled as
`Except.error`; `get_answer` may return None, modelled as `Except.ok
none`), on success store the connection under the answer pc_id, extract
the first name, then call run_bot with the extra user_name keyword; any
exception escaping the body is caught and turned into a JSON 500. -/
def offer_endpoint_body
    (negotiate : String → String → Except String (Option Answer))
    (u : UserData) (st : OfferEffects) (sdp typ : String) :
    OfferEffects × OfferResponse :=
  let st1 : OfferEffects :=
    { st with connectionsCreated := st.connectionsCreated + 1 }
  match negotiate sdp typ with
  | Except.error e => (st1, OfferResponse.jsonError 500 e)
  | Except.ok none => (st1, OfferResponse.jsonError 500 "Failed to create answer")
  | Except.ok (some ans) =>
    let st2 : OfferEffects :=
      { st1 with registry := insertConn st1.registry ans.pcId ⟨[]⟩ }
    match user_first_name (u.full_name.getD "") with
    | Except.error e => (st2, OfferResponse.jsonError 500 e)
    | Except.ok _firstName =>
      if run_bot_call_ok then
        ({ st2 with botStarted := true }, OfferResponse.answer ans)
      else (st2, OfferResponse.jsonError 500 run_bot_type_error_msg)

/-- offer_endpoint with its authentication dependency resolved first:
a failing dependency raises before the body runs, so no session-scoped
effect happens. -/
def offer_endpoint
    (negotiate : String → String → Except String (Option Answer))
    (auth : Except HttpError UserData) (st : OfferEffects) (sdp typ : String) :
    OfferEffects × OfferResponse :=
  match auth with
  | Except.error e => (st, OfferResponse.authReject e)
  | Except.ok u => offer_endpoint_body negotiate u st sdp typ

/-! ### Bot lifecycle callbacks (bot.py) and shutdown (server.py) -/

/-- The part of the pipeline task state the disconnect handler touches. -/
structure BotTask where
  cancelled : Bool
deriving DecidableEq, Repr

/-- bot.py on_client_disconnected: logs and cancels the pipeline task;
it never touches active_connections (the registry is not even in scope
of the handler). -/
def on_client_disconnected (t : BotTask) (reg : Registry) :
    BotTask × Registry :=
  ({ t with cancelled := true }, reg)

/-- server.py lifespan shutdown: close every stored connection and
clear the dict. -/
def lifespan_cleanup (_reg : Registry) : Registry := []

/-- The single system message bot.py appends on client connect before
queueing the LLMRunFrame; a fixed string, independent of any caller
name. -/
def greeting_instruction : String := "Say hello and briefly introduce yourself."

/-! ### The text tap (bot.py, TextSender.process_frame) -/

/-- The out-of-band dict pushed inside an OutputTransportMessageFrame;
msgType models the "type" key and is_final is present only on
transcription messages. -/
structure TapMessage where
  msgType : String
  text : String
  is_final : Option Bool
  role : String
deriving DecidableEq, Repr

/-- The frame kinds TextSender distinguishes: TranscriptionFrame (with
is_final as an optional attribute read via getattr), plain TextFrame,
OutputTransportMessageFrame, and everything else (audio, control). -/
inductive Frame
  | transcription (text : String) (is_final : Option Bool)
  | textFrame (text : String)
  | outputMessage (msg : TapMessage)
  | audio
deriving DecidableEq, Repr

/-- Whether a frame is an out-of-band message frame. -/
def isOutputMessage : Frame → Bool
  | Frame.outputMessage _ => true
  | _ => false

/-- TextSender.process_frame, as the ordered list of frames it pushes
downstream for one input frame: a TranscriptionFrame yields one
transcription message (is_final read via getattr with default True)
followed by the original frame; a TextFrame yields one assistant text
message followed by the original frame; every other frame is forwarded
alone. -/
def TextSender.process_frame : Frame → List Frame
  | Frame.transcription t isFinal =>
    [Frame.outputMessage
        { msgType := "transcription", text := t,
          is_final := some (isFinal.getD true), role := "user" },
      Frame.transcription t isFinal]
  | Frame.textFrame t =>
    [Frame.outputMessage
        { msgType := "text", text := t, is_final := none, role := "assistant" },
      Frame.textFrame t]
  | f => [f]

/-! ### Registry lemmas -/

theorem lookupConn_setConn (reg : Registry) (pid : String) (c c0 : Conn)
    (h : lookupConn reg pid = some c0) :
    lookupConn (setConn reg pid c) pid = some c := by
  induction reg with
  | nil => simp [lookupConn] at h
  | cons kv rest ih =>
    obtain ⟨k, v⟩ := kv
    by_cases hk : k = pid
    · subst hk
      simp [lookupConn, setConn]
    · simp only [lookupConn, if_neg hk] at h
      simp only [setConn, if_neg hk, lookupConn]
      exact ih h

theorem setConn_self (reg : Registry) (pid : String) (c : Conn)
    (h : lookupConn reg pid = some c) : setConn reg pid c = reg := by
  induction reg with
  | nil => rfl
  | cons kv rest ih =>
    obtain ⟨k, v⟩ := kv
    by_cases hk : k = pid
    · subst hk
      have hv : v = c := by simpa [lookupConn] using h
      simp [setConn, hv]
    · simp only [lookupConn, if_neg hk] at h
      simp [setConn, if_neg hk, ih h]

theorem lookupConn_append_single (reg : Registry) (pid : String) (c : Conn)
    (h : lookupConn reg pid = none) :
    lookupConn (reg ++ [(pid, c)]) pid = some c := by
  induction reg with
  | nil => simp [lookupConn]
  | cons kv rest ih =>
    obtain ⟨k, v⟩ := kv
    by_cases hk : k = pid
    · subst hk
      simp [lookupConn] at h
    · simp only [lookupConn, if_neg hk] at h
      simp only [List.cons_append, lookupConn, if_neg hk]
      exact ih h

theorem lookupConn_insertConn (reg : Registry) (pid : String) (c : Conn) :
    lookupConn (insertConn reg pid c) pid = some c := by
  unfold insertConn
  cases h : lookupConn reg pid with
  | none => exact lookupConn_append_single reg pid c h
  | some c0 => exact lookupConn_setConn reg pid c c0 h

/-! ### Candidate loop lemma: exactly the unskipped, successfully
applied candidates reach the handshake, in order -/

theorem applyCandidates_applied (applyFails : RawCandidate → Bool)
    (conn : Conn) (cs : List RawCandidate) :
    (applyCandidates applyFails conn cs).applied
      = conn.applied
        ++ cs.filter (fun c => (skipCheck c).isNone && !(applyFails c)) := by
  induction cs generalizing conn with
  | nil => simp [applyCandidates]
  | cons c rest ih =>
    by_cases h1 : candidate_str_falsy c = true
    · have hsk : skipCheck c = some SkipReason.endOfCandidates := by
        unfold skipCheck
        rw [if_pos h1]
      simp [applyCandidates, h1, List.filter_cons, hsk, ih]
    · by_cases h2 : (c.sdp_mid.isNone && c.sdp_mline_index.isNone) = true
      · have hsk : skipCheck c = some SkipReason.missingMidAndIndex := by
          unfold skipCheck
          rw [if_neg h1, if_pos h2]
        simp [applyCandidates, h1, h2, List.filter_cons, hsk, ih]
      · have hsk : skipCheck c = none := by
          unfold skipCheck
          rw [if_neg h1, if_neg h2]
        by_cases h3 : applyFails c = true
        · simp [applyCandidates, add_ice_candidate, h1, h2, h3,
            List.filter_cons, hsk, ih]
        · have h3f : applyFails c = false := by simpa using h3
          simp [applyCandidates, add_ice_candidate, h1, h2, h3f,
            List.filter_cons, hsk, ih]

/-- The run_bot call in offer_endpoint does not bind: run_bot declares
no user_name parameter. -/
theorem run_bot_call_ok_eq : run_bot_call_ok = false := by decide

/-- The registry produced by a successful negotiation: the connection is
stored under the answer pc_id no matter how the rest of the body ends. -/
theorem offer_endpoint_registry_on_success
    (negotiate : String → String → Except String (Option Answer))
    (u : UserData) (st : OfferEffects) (sdp typ : String) (ans : Answer)
    (h : negotiate sdp typ = Except.ok (some ans)) :
    (offer_endpoint negotiate (Except.ok u) st sdp typ).1.registry
      = insertConn st.registry ans.pcId ⟨[]⟩ := by
  unfold offer_endpoint offer_endpoint_body
  rw [h]
  cases hf : user_first_name (u.full_name.getD "") with
  | error e => simp [hf]
  | ok w => simp [hf, run_bot_call_ok_eq]

/-! ### Claim theorems -/

/-- Claim C1 (code bug): server.py computes the first name and calls
run_bot with the keyword argument user_name, but bot.py declares
run_bot(transport, args) without that parameter; at a concrete
authenticated offer with display name Alice Smith and a successful
negotiation, the call raises TypeError at argument-binding time, the
endpoint answers a 500 JSON error, and the bot pipeline (hence the
name-seeded greeting) never starts. -/
theorem C1_run_bot_user_name_call_fails :
    run_bot_call_ok = false ∧
    (offer_endpoint (fun _ _ => Except.ok (some ⟨"pc-1", "answer-sdp"⟩))
        (Except.ok ⟨"u1", "alice@example.com", some "Alice Smith"⟩)
        ⟨[], 0, false⟩ "offer-sdp" "offer").2
      = OfferResponse.jsonError 500 run_bot_type_error_msg ∧
    (offer_endpoint (fun _ _ => Except.ok (some ⟨"pc-1", "answer-sdp"⟩))
        (Except.ok ⟨"u1", "alice@example.com", some "Alice Smith"⟩)
        ⟨[], 0, false⟩ "offer-sdp" "offer").1.botStarted = false := by
  exact ⟨by decide, by decide, by decide⟩

/-- Claim C2 counterexample: at a concrete registry holding session
pc-1, the on_client_disconnected handler only cancels the pipeline
task and leaves the registry untouched, so a subsequent
attach-candidates on pc-1 still answers ok instead of the
SessionNotFound the claim requires. -/
theorem C2_disconnect_keeps_registry_entry :
    (on_client_disconnected ⟨false⟩ [("pc-1", ⟨[]⟩)]).1.cancelled = true ∧
    (on_client_disconnected ⟨false⟩ [("pc-1", ⟨[]⟩)]).2
      = [("pc-1", (⟨[]⟩ : Conn))] ∧
    (candidate_endpoint (fun _ => false)
        (on_client_disconnected ⟨false⟩ [("pc-1", ⟨[]⟩)]).2
        ⟨some "pc-1", some []⟩).2 = CandResponse.ok ∧
    CandResponse.ok ≠ CandResponse.notFound := by
  exact ⟨rfl, rfl, by decide, by decide⟩

/-- Claim C2 (amended): for every offer whose negotiation succeeds, the
answer pc_id is inserted into the registry and is resolvable by
attach-candidates; the client-disconnect handler cancels the pipeline
task but does not remove the registry entry, so attach-candidates on
that id still succeeds after disconnect; entries disappear only through
the process-shutdown cleanup, after which attach-candidates answers
SessionNotFound. -/
theorem C2_registry_lifecycle_amended
    (negotiate : String → String → Except String (Option Answer))
    (u : UserData) (st : OfferEffects) (sdp typ : String) (ans : Answer)
    (applyFails : RawCandidate → Bool) (t : BotTask)
    (h : negotiate sdp typ = Except.ok (some ans)) :
    (candidate_endpoint applyFails
        (offer_endpoint negotiate (Except.ok u) st sdp typ).1.registry
        ⟨some ans.pcId, some []⟩).2 = CandResponse.ok ∧
    (on_client_disconnected t
        (offer_endpoint negotiate (Except.ok u) st sdp typ).1.registry).2
      = (offer_endpoint negotiate (Except.ok u) st sdp typ).1.registry ∧
    lifespan_cleanup
        (offer_endpoint negotiate (Except.ok u) st sdp typ).1.registry = [] ∧
    (candidate_endpoint applyFails
        (lifespan_cleanup
          (offer_endpoint negotiate (Except.ok u) st sdp typ).1.registry)
        ⟨some ans.pcId, some []⟩).2 = CandResponse.notFound := by
  have hreg := offer_endpoint_registry_on_success negotiate u st sdp typ ans h
  refine ⟨?_, rfl, rfl, rfl⟩
  rw [hreg]
  have hl := lookupConn_insertConn st.registry ans.pcId ⟨[]⟩
  simp [candidate_endpoint, hl]

/-- Claim C2 (amended) witness: a concrete successful offer for pc-9
is resolvable by attach-candidates, survives the disconnect handler,
and resolves to SessionNotFound only after the shutdown cleanup. -/
theorem C2_registry_lifecycle_amended_witness :
    (candidate_endpoint (fun _ => false)
        (offer_endpoint (fun _ _ => Except.ok (some ⟨"pc-9", "a-sdp"⟩))
            (Except.ok ⟨"u1", "alice@example.com", none⟩)
            ⟨[], 0, false⟩ "o-sdp" "offer").1.registry
        ⟨some "pc-9", some []⟩).2 = CandResponse.ok ∧
    (on_client_disconnected ⟨false⟩
        (offer_endpoint (fun _ _ => Except.ok (some ⟨"pc-9", "a-sdp"⟩))
            (Except.ok ⟨"u1", "alice@example.com", none⟩)
            ⟨[], 0, false⟩ "o-sdp" "offer").1.registry).2
      = (offer_endpoint (fun _ _ => Except.ok (some ⟨"pc-9", "a-sdp"⟩))
            (Except.ok ⟨"u1", "alice@example.com", none⟩)
            ⟨[], 0, false⟩ "o-sdp" "offer").1.registry ∧
    lifespan_cleanup
        (offer_endpoint (fun _ _ => Except.ok (some ⟨"pc-9", "a-sdp"⟩))
            (Except.ok ⟨"u1", "alice@example.com", none⟩)
            ⟨[], 0, false⟩ "o-sdp" "offer").1.registry = [] ∧
    (candidate_endpoint (fun _ => false)
        (lifespan_cleanup
          (offer_endpoint (fun _ _ => Except.ok (some ⟨"pc-9", "a-sdp"⟩))
              (Except.ok ⟨"u1", "alice@example.com", none⟩)
              ⟨[], 0, false⟩ "o-sdp" "offer").1.registry)
        ⟨some "pc-9", some []⟩).2 = CandResponse.notFound :=
  C2_registry_lifecycle_amended (fun _ _ => Except.ok (some ⟨"pc-9", "a-sdp"⟩))
    ⟨"u1", "alice@example.com", none⟩ ⟨[], 0, false⟩ "o-sdp" "offer"
    ⟨"pc-9", "a-sdp"⟩ (fun _ => false) ⟨false⟩ rfl

/-- Claim C3: for a batch on an existing session, the endpoint answers
ok; the handshake receives exactly the entries that are neither skipped
(empty candidate string, or sdp_mid and sdp_mline_index both absent)
nor failing on application, in arrival order, with per-entry
application errors swallowed; and the empty-string test is decided
before the missing-fields test. -/
theorem C3_candidate_batch_semantics (applyFails : RawCandidate → Bool)
    (reg : Registry) (pid : String) (conn : Conn) (cs : List RawCandidate)
    (h : lookupConn reg pid = some conn) :
    (candidate_endpoint applyFails reg ⟨some pid, some cs⟩).2
      = CandResponse.ok ∧
    (candidate_endpoint applyFails reg ⟨some pid, some cs⟩).1
      = setConn reg pid (applyCandidates applyFails conn cs) ∧
    (applyCandidates applyFails conn cs).applied
      = conn.applied
        ++ cs.filter (fun c => (skipCheck c).isNone && !(applyFails c)) ∧
    (∀ c : RawCandidate, candidate_str_falsy c = true →
      skipCheck c = some SkipReason.endOfCandidates) := by
  refine ⟨?_, ?_, applyCandidates_applied applyFails conn cs, ?_⟩
  · simp [candidate_endpoint, h]
  · simp [candidate_endpoint, h]
  · intro c hc
    unfold skipCheck
    rw [if_pos hc]

/-- Claim C3 witness: a concrete batch with an end-of-candidates marker,
an entry missing both sdp fields, and a well-formed entry, on an
existing session, answers ok. -/
theorem C3_candidate_batch_semantics_witness :
    (candidate_endpoint (fun _ => false) [("pc-1", (⟨[]⟩ : Conn))]
        ⟨some "pc-1",
          some [⟨some "", none, none⟩, ⟨some "cand-a", none, none⟩,
            ⟨some "cand-b", some "0", some 0⟩]⟩).2 = CandResponse.ok :=
  (C3_candidate_batch_semantics (fun _ => false) [("pc-1", ⟨[]⟩)] "pc-1" ⟨[]⟩
      [⟨some "", none, none⟩, ⟨some "cand-a", none, none⟩,
        ⟨some "cand-b", some "0", some 0⟩] (by decide)).1

/-- Claim C4: an attach-candidates call whose pc_id resolves to no
registry entry answers SessionNotFound (404), leaves the registry
untouched and applies no candidate. -/
theorem C4_unknown_session_not_found (applyFails : RawCandidate → Bool)
    (reg : Registry) (req : CandidateRequest)
    (h : ∀ pid, req.pc_id = some pid → lookupConn reg pid = none) :
    candidate_endpoint applyFails reg req = (reg, CandResponse.notFound) := by
  unfold candidate_endpoint
  cases hp : req.pc_id with
  | none => rfl
  | some pid =>
    simp [h pid hp]

/-- Claim C4 witness: attach-candidates on unknown-id against an empty
registry answers SessionNotFound and changes nothing. -/
theorem C4_unknown_session_not_found_witness :
    candidate_endpoint (fun _ => false) []
        ⟨some "unknown-id", some [⟨some "cand", some "0", some 0⟩]⟩
      = ([], CandResponse.notFound) :=
  C4_unknown_session_not_found (fun _ => false) []
    ⟨some "unknown-id", some [⟨some "cand", some "0", some 0⟩]⟩
    (fun _ _ => rfl)

/-- Claim C5: when the handshake cannot produce an answer (initialize
raises, or get_answer returns None), the offer endpoint reports a 500
error and the registry is unchanged, since insertion happens only after
an answer exists. -/
theorem C5_negotiation_failure_no_entry
    (negotiate : String → String → Except String (Option Answer))
    (u : UserData) (st : OfferEffects) (sdp typ : String)
    (h : (∃ m, negotiate sdp typ = Except.error m)
        ∨ negotiate sdp typ = Except.ok none) :
    (offer_endpoint negotiate (Except.ok u) st sdp typ).1.registry
      = st.registry ∧
    ∃ m, (offer_endpoint negotiate (Except.ok u) st sdp typ).2
        = OfferResponse.jsonError 500 m := by
  unfold offer_endpoint offer_endpoint_body
  rcases h with ⟨m, hm⟩ | hm
  · rw [hm]
    exact ⟨rfl, m, rfl⟩
  · rw [hm]
    exact ⟨rfl, "Failed to create answer", rfl⟩

/-- Claim C5 witness: a concrete offer whose negotiation raises leaves
the registry empty and yields a 500. -/
theorem C5_negotiation_failure_no_entry_witness :
    (offer_endpoint (fun _ _ => Except.error "Invalid SDP")
        (Except.ok ⟨"u1", "alice@example.com", none⟩)
        ⟨[], 0, false⟩ "" "offer").1.registry = [] ∧
    ∃ m, (offer_endpoint (fun _ _ => Except.error "Invalid SDP")
        (Except.ok ⟨"u1", "alice@example.com", none⟩)
        ⟨[], 0, false⟩ "" "offer").2 = OfferResponse.jsonError 500 m :=
  C5_negotiation_failure_no_entry (fun _ _ => Except.error "Invalid SDP")
    ⟨"u1", "alice@example.com", none⟩ ⟨[], 0, false⟩ "" "offer"
    (Or.inl ⟨"Invalid SDP", rfl⟩)

/-- Claim C6: when the authentication dependency rejects, the offer
endpoint returns that rejection (status 401), the endpoint body never
runs, and no session-scoped resource changes: registry, connection
count and bot-start flag are exactly the input state. -/
theorem C6_auth_reject_allocates_nothing
    (supabaseConfigured : Bool) (g : GetUserOutcome)
    (negotiate : String → String → Except String (Option Answer))
    (st : OfferEffects) (sdp typ : String) (e : HttpError)
    (h : get_current_user supabaseConfigured g = Except.error e) :
    offer_endpoint negotiate (get_current_user supabaseConfigured g) st sdp typ
      = (st, OfferResponse.authReject e) ∧ e.status = 401 := by
  constructor
  · unfold offer_endpoint
    rw [h]
  · unfold get_current_user verify_token at h
    cases hb : verify_token_body supabaseConfigured g with
    | ok u =>
      rw [hb] at h
      simp at h
    | error ex =>
      rw [hb] at h
      rw [← Except.error.inj h]

/-- Claim C6 witness: with the supabase client unconfigured the
dependency rejects with 401 and the concrete offer state is returned
unchanged. -/
theorem C6_auth_reject_allocates_nothing_witness :
    offer_endpoint (fun _ _ => Except.ok none)
        (get_current_user false GetUserOutcome.raises)
        ⟨[], 0, false⟩ "sdp" "offer"
      = (⟨[], 0, false⟩,
          OfferResponse.authReject ⟨401, "Could not validate credentials"⟩) ∧
    (⟨401, "Could not validate credentials"⟩ : HttpError).status = 401 :=
  C6_auth_reject_allocates_nothing false GetUserOutcome.raises
    (fun _ _ => Except.ok none) ⟨[], 0, false⟩ "sdp" "offer"
    ⟨401, "Could not validate credentials"⟩ rfl

/-- Claim C7: the text tap emits exactly one transcription message per
TranscriptionFrame (is_final read from the frame, defaulting to true
when absent) and exactly one assistant text message per TextFrame, and
in every case forwards the original frame unchanged as the last frame
it pushes, never dropping or reordering it. -/
theorem C7_message_tap (t : String) (isFinal : Option Bool) :
    TextSender.process_frame (Frame.transcription t isFinal)
      = [Frame.outputMessage
          { msgType := "transcription", text := t,
            is_final := some (isFinal.getD true), role := "user" },
        Frame.transcription t isFinal] ∧
    TextSender.process_frame (Frame.textFrame t)
      = [Frame.outputMessage
          { msgType := "text", text := t, is_final := none,
            role := "assistant" },
        Frame.textFrame t] ∧
    ((TextSender.process_frame (Frame.transcription t isFinal)).filter
        isOutputMessage).length = 1 ∧
    ((TextSender.process_frame (Frame.textFrame t)).filter
        isOutputMessage).length = 1 ∧
    (∀ f : Frame, (TextSender.process_frame f).getLast? = some f) := by
  refine ⟨rfl, rfl, rfl, rfl, ?_⟩
  intro f
  cases f <;> rfl

/-- Claim C8: the connection-info route always reports transport webrtc
together with the configured ICE server list, and that list is the
single public STUN default whenever ICE_SERVERS is unset or fails to
parse. -/
theorem C8_connection_info_defaults (env : Option String)
    (parseJson : String → Option (List IceServer)) (port : Nat) :
    (get_connection_details env parseJson port).transport = "webrtc" ∧
    (get_connection_details env parseJson port).ice_servers
      = get_ice_servers env parseJson ∧
    ((env = none ∨ ∃ s, env = some s ∧ parseJson s = none) →
      (get_connection_details env parseJson port).ice_servers
        = default_ice_servers) := by
  refine ⟨rfl, rfl, ?_⟩
  rintro (henv | ⟨s, hs, hp⟩)
  · subst henv
    rfl
  · subst hs
    show get_ice_servers (some s) parseJson = default_ice_servers
    by_cases hse : s = ""
    · simp [get_ice_servers, hse]
    · simp [get_ice_servers, hse, hp]

/-- Claim C8 witness: with ICE_SERVERS unset the route reports webrtc
and the single Google STUN default. -/
theorem C8_connection_info_defaults_witness :
    (get_connection_details none (fun _ => none) 7860).transport = "webrtc" ∧
    (get_connection_details none (fun _ => none) 7860).ice_servers
      = default_ice_servers :=
  ⟨(C8_connection_info_defaults none (fun _ => none) 7860).1,
    (C8_connection_info_defaults none (fun _ => none) 7860).2.2 (Or.inl rfl)⟩

/-- Claim C9: every failure of verify_token, whatever its origin
(unconfigured client, verifier exception, verifier returning no user
and the internally raised 401), surfaces as exactly 401 with detail
Could not validate credentials, and each of those origins does fail. -/
theorem C9_verify_token_single_failure_mode (supabaseConfigured : Bool)
    (g : GetUserOutcome) :
    (∀ e : HttpError, verify_token supabaseConfigured g = Except.error e →
      e = ⟨401, "Could not validate credentials"⟩) ∧
    ((supabaseConfigured = false ∨ g = GetUserOutcome.raises
        ∨ g = GetUserOutcome.noUser) →
      verify_token supabaseConfigured g
        = Except.error ⟨401, "Could not validate credentials"⟩) := by
  constructor
  · intro e he
    unfold verify_token at he
    cases hb : verify_token_body supabaseConfigured g with
    | ok u =>
      rw [hb] at he
      simp at he
    | error ex =>
      rw [hb] at he
      exact (Except.error.inj he).symm
  · rintro (hc | hg | hg)
    · subst hc
      rfl
    · subst hg
      cases supabaseConfigured <;> rfl
    · subst hg
      cases supabaseConfigured <;> rfl

/-- Claim C9 witness: a raising verifier call yields exactly the
generic 401. -/
theorem C9_verify_token_single_failure_mode_witness :
    verify_token true GetUserOutcome.raises
      = Except.error ⟨401, "Could not validate credentials"⟩ :=
  (C9_verify_token_single_failure_mode true GetUserOutcome.raises).2
    (Or.inr (Or.inl rfl))

/-- Claim C10: an attach-candidates call on an existing session whose
body has no candidates key, or an empty list, answers ok and leaves
both the registry and the stored handshake state exactly as they were. -/
theorem C10_empty_batch_noop (applyFails : RawCandidate → Bool)
    (reg : Registry) (pid : String) (conn : Conn)
    (cs : Option (List RawCandidate))
    (h1 : lookupConn reg pid = some conn) (h2 : cs = none ∨ cs = some []) :
    candidate_endpoint applyFails reg ⟨some pid, cs⟩
      = (reg, CandResponse.ok) := by
  have hset := setConn_self reg pid conn h1
  rcases h2 with h2 | h2 <;> subst h2 <;>
    simp [candidate_endpoint, h1, applyCandidates, hset]

/-- Claim C10 witness: a request without a candidates key on an
existing session answers ok and changes nothing. -/
theorem C10_empty_batch_noop_witness :
    candidate_endpoint (fun _ => false) [("pc-1", (⟨[]⟩ : Conn))]
        ⟨some "pc-1", none⟩
      = ([("pc-1", ⟨[]⟩)], CandResponse.ok) :=
  C10_empty_batch_noop (fun _ => false) [("pc-1", ⟨[]⟩)] "pc-1" ⟨[]⟩ none
    (by decide) (Or.inl rfl)

end PersonaVoiceBot
